import Mathlib

/-
Verification development for the `ai-model-pricing` repository.

The repository consists of two copies of one Python script,
`script/fetch_pricing.py` (with a Validator and an interactive
confirmation gate) and `scripts/fetch_pricing.py` (without the
Validator, and with an `or True` in the confirmation expression).
Below, the data model and the pure fragments of both scripts are
embedded shallowly: Python dicts become association lists in insertion
order (keys are unique in Python dicts, which reappears here as
explicit nodup-key hypotheses where a proof needs it), Python numbers
become an int/float sum `PyNum` whose float payload is the exact
rational value, and the orchestrator `main` becomes a pure function of
the run's inputs (loaded document, the two fetch results, the force
flag, the confirmation answer, and whether the file write succeeds).
-/

set_option maxHeartbeats 1000000

/-- Python numbers as they occur in a pricing document: `int` values come
from JSON integers, `float` values from `float(...)` parsing and JSON
decimals.  The float payload is the exact rational value of the number;
all floats this program produces are short terminating decimals, which
are represented exactly and printed by `repr` as their decimal
expansion, so the rational model agrees with IEEE doubles on every
comparison and string this program performs. -/
inductive PyNum where
  | int : ℤ → PyNum
  | float : ℚ → PyNum
deriving DecidableEq, Repr

/-- Numeric value of a Python number; Python `==` and `!=` compare `int`
and `float` by value, which is equality of `toRat`. -/
def PyNum.toRat : PyNum → ℚ
  | .int n => (n : ℚ)
  | .float q => q

/-- Python `==` on numbers (int/float cross-comparison is by value). -/
def PyNum.eqb (a b : PyNum) : Bool :=
  decide (a.toRat = b.toRat)

/-- Decimal digits of `num / den` after the decimal point, most
significant first, stopping at an exact zero remainder (or at the fuel
bound, which Python's 17-significant-digit float repr never exceeds on
the terminating decimals this program handles). -/
def fracDigitsAux (num den : Nat) : Nat → String
  | 0 => ""
  | fuel + 1 =>
    if num = 0 then ""
    else
      let num10 := num * 10
      toString (num10 / den) ++ fracDigitsAux (num10 % den) den fuel

/-- Python `repr`/`str` of a float whose value is the rational `q`:
sign, integer part, a dot, and the fractional digits (`.0` when the
value is integral), e.g. `30.0` prints as `"30.0"` and `2.5` as
`"2.5"`. -/
def pyFloatRepr (q : ℚ) : String :=
  let sign := if q.num < 0 then "-" else ""
  let n := q.num.natAbs
  let fr := fracDigitsAux (n % q.den) q.den 17
  sign ++ toString (n / q.den) ++ "." ++ (if fr = "" then "0" else fr)

/-- Python `str` of a number as interpolated into f-strings:
`str(30) = "30"`, `str(30.0) = "30.0"`. -/
def PyNum.pyStr : PyNum → String
  | .int n => toString n
  | .float q => pyFloatRepr q

/-- A price record as built by the extractors and stored under a model
identifier: `{"input": ..., "output": ..., "description": ...}`. -/
structure PriceRecord where
  input : PyNum
  output : PyNum
  description : String
deriving DecidableEq, Repr

/-- A provider snapshot: Python dict from model identifier to price
record, in insertion order. -/
abbrev Snapshot := List (String × PriceRecord)

/-- The `models` field: Python dict from provider name to snapshot. -/
abbrev Models := List (String × Snapshot)

/-- The persisted root document
`{"last_updated": ..., "sources": ..., "models": ...}`. -/
structure PricingDocument where
  last_updated : String
  sources : List (String × String)
  models : Models
deriving DecidableEq, Repr

/-- The `old` argument of `compare_pricing` as Python sees it:
`None`, an empty dict `\x7b\x7d` (falsy, from a `{}` JSON file), or a
populated document (truthy). -/
inductive OldArg where
  | null
  | emptyDict
  | doc : PricingDocument → OldArg
deriving DecidableEq, Repr

/-- Python truthiness of the loaded document (`if existing_pricing:`):
`None` and `\x7b\x7d` are falsy, a populated document is truthy. -/
def truthyOld : OldArg → Bool
  | .doc _ => true
  | _ => false

/-- First value bound to a key in an association list (Python dict
lookup `d[k]` / membership `k in d`). -/
def lookupKey {β : Type} (l : List (String × β)) (k : String) : Option β :=
  match l with
  | [] => none
  | (a, b) :: es => if a = k then some b else lookupKey es k

/-- Concatenation of `f` over a list; each Python loop body that appends
zero or more strings to `changes` becomes one `concatMap` with `f`
returning the strings that iteration appends. -/
def concatMap {α β : Type} (f : α → List β) : List α → List β
  | [] => []
  | a :: es => f a ++ concatMap f es

/-- Change lines produced for one provider present in both documents:
new models, per-field price changes (input then output, Python `!=` on
numbers), then removed models — in the source's loop order
(fetch_pricing.py, `compare_pricing`, inner loops). -/
def model_changes (provider : String) (old_s new_s : Snapshot) : List String :=
  concatMap (fun mm =>
    match lookupKey old_s mm.1 with
    | none => ["New model: " ++ provider ++ "/" ++ mm.1]
    | some old_r =>
      (if PyNum.eqb old_r.input mm.2.input then [] else
        ["Price change: " ++ provider ++ "/" ++ mm.1 ++ " input $" ++
          old_r.input.pyStr ++ " → $" ++ mm.2.input.pyStr]) ++
      (if PyNum.eqb old_r.output mm.2.output then [] else
        ["Price change: " ++ provider ++ "/" ++ mm.1 ++ " output $" ++
          old_r.output.pyStr ++ " → $" ++ mm.2.output.pyStr])) new_s ++
  concatMap (fun mm =>
    if (lookupKey new_s mm.1).isSome then []
    else ["Removed model: " ++ provider ++ "/" ++ mm.1]) old_s

/-- Change lines for the truthy-old branch of `compare_pricing`:
new providers, removed providers, then the per-provider model loop
(which skips providers absent from `old_models`). -/
def compare_models (old_models new_models : Models) : List String :=
  concatMap (fun pm =>
    if (lookupKey old_models pm.1).isSome then []
    else ["New provider: " ++ pm.1]) new_models ++
  concatMap (fun pm =>
    if (lookupKey new_models pm.1).isSome then []
    else ["Removed provider: " ++ pm.1]) old_models ++
  concatMap (fun pm =>
    match lookupKey old_models pm.1 with
    | none => []
    | some old_s => model_changes pm.1 old_s pm.2) new_models

/-- The Differ, `compare_pricing(old, new)` of fetch_pricing.py: a falsy
`old` (None or empty dict) short-circuits to the single change
"Initial pricing data created"; otherwise the change lines are computed
from the two `models` fields and `changed` is their non-emptiness
(`len(changes) > 0`). -/
def compare_pricing (old : OldArg) (new : PricingDocument) : Bool × List String :=
  match old with
  | .null => (true, ["Initial pricing data created"])
  | .emptyDict => (true, ["Initial pricing data created"])
  | .doc o =>
    let changes := compare_models o.models new.models
    (decide (0 < changes.length), changes)

/-- Characters matched by the character class of the price pattern
`\$?([\d.]+)` (ASCII digits and the dot; the cells in scope are
ASCII). -/
def isNumChar (c : Char) : Bool :=
  c.isDigit || c == '.'

/-- Captured group of `re.search(r'\$?([\d.]+)', s)`: the maximal run of
digit/dot characters starting at the first such character of `s`, or
`none` when `s` has no digit/dot character (the optional `\$?` never
changes the captured group). -/
def firstNumToken (s : String) : Option String :=
  let run := ((s.toList).dropWhile (fun c => !isNumChar c)).takeWhile isNumChar
  if run.isEmpty then none else some (String.mk run)

/-- Value of the digit list read as a decimal natural number. -/
def digitsVal (l : List Char) : Nat :=
  l.foldl (fun acc c => acc * 10 + (c.toNat - 48)) 0

/-- Python `float(token)` on a captured digit/dot token: succeeds iff
the token has at least one digit and at most one dot (otherwise
`ValueError`, which the source catches and ignores), and returns the
exact decimal value, integer part plus fractional digits over the
matching power of ten. -/
def pyFloatOfToken (t : String) : Option ℚ :=
  let cs := t.toList
  if cs.count '.' ≤ 1 && cs.any Char.isDigit then
    let ip := cs.takeWhile (fun c => c != '.')
    let fp := (cs.dropWhile (fun c => c != '.')).drop 1
    some (mkRat (digitsVal ip * 10 ^ fp.length + digitsVal fp) (10 ^ fp.length))
  else none

/-- Price extraction loop of `_parse_openai_pricing`: over ALL cell
texts of the row (the model-name cell included), take the first numeric
token of each cell, keep it when `float` succeeds and the value is in
`(0, 1000)`. -/
def extractPrices (cell_texts : List String) : List ℚ :=
  cell_texts.filterMap (fun text =>
    match firstNumToken text with
    | none => none
    | some tok =>
      match pyFloatOfToken tok with
      | none => none
      | some price =>
        if 0 < price ∧ price < 1000 then some price else none)

/-- Python `str.lower()` over the ASCII cells in scope (character-wise
lower-casing). -/
def pyLower (s : String) : String :=
  String.mk (s.toList.map Char.toLower)

/-- Python `str.upper()` over the ASCII cells in scope (character-wise
upper-casing). -/
def pyUpper (s : String) : String :=
  String.mk (s.toList.map Char.toUpper)

/-- Python `str.startswith(pre)`. -/
def pyStartsWith (s pre : String) : Bool :=
  pre.toList.isPrefixOf s.toList

/-- Model-name scan of `_parse_openai_pricing`: the first cell whose
lower-cased text starts with `gpt-` or `o1`, lower-cased. -/
def findModelName (cell_texts : List String) : Option String :=
  cell_texts.findSome? (fun text =>
    let text_lower := pyLower text
    if pyStartsWith text_lower "gpt-" || pyStartsWith text_lower "o1" then
      some text_lower
    else none)

/-- Python dict assignment `d[k] = v`: replace the value at an existing
key in place, else append the binding. -/
def upsert (l : List (String × PriceRecord)) (k : String) (v : PriceRecord) :
    List (String × PriceRecord) :=
  match l with
  | [] => [(k, v)]
  | (a, b) :: es => if a = k then (a, v) :: es else (a, b) :: upsert es k v

/-- One row of `_parse_openai_pricing`: rows with fewer than 3 cells are
skipped; a qualifying model name plus at least two in-range prices add
the entry `{"input": prices[0], "output": prices[1],
"description": model_name.upper()}` under `model_name`. -/
def processRow (pricing_dict : List (String × PriceRecord)) (row : List String) :
    List (String × PriceRecord) :=
  if 3 ≤ row.length then
    match findModelName row with
    | none => pricing_dict
    | some model_name =>
      match extractPrices row with
      | p0 :: p1 :: _ =>
        upsert pricing_dict model_name
          { input := PyNum.float p0, output := PyNum.float p1,
            description := pyUpper model_name }
      | _ => pricing_dict
  else pricing_dict

/-- The OpenAI Extractor `_parse_openai_pricing(soup)` of
script/fetch_pricing.py, with the soup abstracted to the stripped cell
texts of every table row: fold the row rule over all rows of all
tables, and return `None` when the resulting dict is empty. -/
def parse_openai_pricing (tables : List (List (List String))) :
    Option (List (String × PriceRecord)) :=
  let pricing_dict :=
    tables.foldl (fun acc table => table.foldl processRow acc) []
  if pricing_dict.isEmpty then none else some pricing_dict

/-- A JSON value examined by the Validator via `model_data.get(...)`:
either a number or some non-numeric value. -/
inductive PyVal where
  | num : PyNum → PyVal
  | nonNum : PyVal
deriving DecidableEq, Repr

/-- A value of the snapshot dict as the Validator sees it: a dict with
the optional `input`/`output` members, or a non-dict value (which is
skipped, counting toward the total but never valid). -/
inductive VEntry where
  | record : Option PyVal → Option PyVal → VEntry
  | notDict : VEntry
deriving DecidableEq, Repr

/-- Per-entry check of `validate_pricing_data`: the value is a dict,
`input` and `output` exist and are numbers (`isinstance(..., (int,
float))`), and both are strictly between 0 and 1000. -/
def isValidEntry : VEntry → Bool
  | .record (some (.num i)) (some (.num o)) =>
    decide (0 < i.toRat) && decide (i.toRat < 1000) &&
      decide (0 < o.toRat) && decide (o.toRat < 1000)
  | _ => false

/-- The Validator `validate_pricing_data(pricing_dict, provider,
existing_count)` of script/fetch_pricing.py.  Rejects an empty dict,
fewer than 3 entries, or fewer than 80% valid entries; `provider` and
`existing_count` only affect logging.  The Python threshold test
`valid_models < len(pricing_dict) * 0.8` is modelled as the exact
rational comparison `valid * 5 < len * 4`, which agrees with the
float computation for every list length in range here. -/
def validate_pricing_data (pricing_dict : List (String × VEntry))
    (provider : String) (existing_count : Nat) : Bool :=
  if pricing_dict.isEmpty then false
  else if pricing_dict.length < 3 then false
  else
    let valid_models := (pricing_dict.filter (fun p => isValidEntry p.2)).length
    if valid_models * 5 < pricing_dict.length * 4 then false
    else
      let _ := provider
      let _ := existing_count
      true

/-- View of a fetched snapshot as the dict the Validator receives
(fetched records always carry numeric `input`/`output`). -/
def toVEntry (r : PriceRecord) : VEntry :=
  .record (some (.num r.input)) (some (.num r.output))

/-- Validation step of `main`: a truthy fetched dict that fails
`validate_pricing_data` is replaced by `None`; a falsy or absent one is
left alone (the `if openai_pricing:` guard skips validation). -/
def postValidate (fetched : Option Snapshot) (provider : String)
    (existing_count : Nat) : Option Snapshot :=
  match fetched with
  | none => none
  | some s =>
    if s.isEmpty then some s
    else if validate_pricing_data (s.map (fun p => (p.1, toVEntry p.2)))
        provider existing_count then some s
    else none

/-- Collapse Python falsiness of an optional dict: an empty dict and
`None` behave identically at every later use (`if not x`, `if x:`), so
`some []` is normalised to `none`. -/
def snapVal (o : Option Snapshot) : Option Snapshot :=
  match o with
  | none => none
  | some s => if s.isEmpty then none else some s

/-- Number of models a provider has in the loaded document
(`len(existing_models.get(provider, {}))`), used as the Validator's
`existing_count`. -/
def existingCount (existing : OldArg) (provider : String) : Nat :=
  match existing with
  | .doc e =>
    match lookupKey e.models provider with
    | some s => s.length
    | none => 0
  | _ => 0

/-- Outcome of one run of `main`: the process exit code, whether
`save_pricing` was invoked, and the document it wrote when the write
succeeded. -/
structure RunResult where
  exitCode : Nat
  saveAttempted : Bool
  savedDoc : Option PricingDocument
deriving DecidableEq, Repr

/-- The `models` dict of the candidate document built by `main`:
fetched data per provider when truthy, else that provider's entry of
the truthy existing document when present (insertion order openai
then anthropic). -/
def buildModels (existing : OldArg) (openai_p anthropic_p : Option Snapshot) :
    Models :=
  (match openai_p with
   | some s => [("openai", s)]
   | none =>
     match existing with
     | .doc e =>
       match lookupKey e.models "openai" with
       | some s => [("openai", s)]
       | none => []
     | _ => []) ++
  (match anthropic_p with
   | some s => [("anthropic", s)]
   | none =>
     match existing with
     | .doc e =>
       match lookupKey e.models "anthropic" with
       | some s => [("anthropic", s)]
       | none => []
     | _ => [])

/-- The `sources` dict of the candidate document
(script/fetch_pricing.py URLs). -/
def mainSources : List (String × String) :=
  [("openai", "https://platform.openai.com/docs/pricing"),
   ("anthropic", "https://docs.anthropic.com/en/docs/about-claude/models")]

/-- `main` of script/fetch_pricing.py from the total-failure check to
the return, over the post-validation fetch results `openai_p` /
`anthropic_p`: bail out (keeping the file untouched) when both are
falsy, else build the candidate, diff it against the loaded document,
and gate the save on the diff, the force flag and the confirmation
answer; a failed write exits 1. -/
def runCore (existing : OldArg) (openai_p anthropic_p : Option Snapshot)
    (force user_yes save_ok : Bool) (now : String) : RunResult :=
  if openai_p.isNone && anthropic_p.isNone then
    if truthyOld existing then ⟨0, false, none⟩ else ⟨1, false, none⟩
  else
    let new_pricing : PricingDocument :=
      { last_updated := now, sources := mainSources,
        models := buildModels existing openai_p anthropic_p }
    let diffResult := compare_pricing existing new_pricing
    if diffResult.1 then
      if force || user_yes then
        if save_ok then ⟨0, true, some new_pricing⟩ else ⟨1, true, none⟩
      else ⟨0, false, none⟩
    else
      if force then
        if save_ok then ⟨0, true, some new_pricing⟩ else ⟨1, true, none⟩
      else ⟨0, false, none⟩

/-- The Orchestrator `main` of script/fetch_pricing.py as a function of
the run's inputs: the loaded document, the raw results of the two
provider fetches, the `--force` flag, whether the confirmation answer
is `y` (EOF counts as no), whether the file write would succeed, and
the timestamp. -/
def runMain (existing : OldArg) (openai_fetch anthropic_fetch : Option Snapshot)
    (force user_yes save_ok : Bool) (now : String) : RunResult :=
  runCore existing
    (snapVal (postValidate openai_fetch "OpenAI" (existingCount existing "openai")))
    (snapVal (postValidate anthropic_fetch "Anthropic" (existingCount existing "anthropic")))
    force user_yes save_ok now

/-- Confirmation decision of the changes branch in
script/fetch_pricing.py: `should_save = args.force`, then the prompt
answer (`y` or not, EOF = not) when force is unset. -/
def should_save_script_variant (force user_yes : Bool) : Bool :=
  force || user_yes

/-- Confirmation expression of the changes branch in
scripts/fetch_pricing.py, line 360:
`args.force or input("Save updated pricing? (y/N): ").strip().lower() == 'y' or True`. -/
def should_save_scripts_variant (force answer_is_yes : Bool) : Bool :=
  force || answer_is_yes || true

/-- Keys of a Python-dict association list are pairwise distinct; every
dict `json.load` returns or the scripts build has this property. -/
abbrev keysNodup {β : Type} (l : List (String × β)) : Prop :=
  (l.map Prod.fst).Nodup

/-- Well-formedness of a `models` dict as Python dicts guarantee it:
provider keys are distinct and each provider's snapshot has distinct
model keys. -/
abbrev wfModels (m : Models) : Prop :=
  keysNodup m ∧ ∀ pm ∈ m, keysNodup pm.2

/-- A concrete three-model snapshot used as witness data. -/
def exampleSnapshot : Snapshot :=
  [("gpt-4", { input := PyNum.float 10, output := PyNum.float 30, description := "GPT-4" }),
   ("gpt-4o", { input := PyNum.float 5, output := PyNum.float 15, description := "GPT-4O" }),
   ("o1", { input := PyNum.float 15, output := PyNum.float 60, description := "O1" })]

/-- A concrete pricing document used as witness data. -/
def exampleDoc : PricingDocument :=
  { last_updated := "2025-01-01T00:00:00+00:00", sources := mainSources,
    models := [("openai", exampleSnapshot)] }

/-- The same document with only `last_updated` changed. -/
def exampleDocNewer : PricingDocument :=
  { exampleDoc with last_updated := "2025-06-01T00:00:00+00:00" }

/-- A five-entry snapshot of which exactly four entries are in range:
the fifth has `input = 0`.  `4 * 5 = 20` is not `< 5 * 4 = 20`, so the
80% rule accepts it. -/
def validatorCexSnapshot : List (String × VEntry) :=
  [("model-a", .record (some (.num (.float 1))) (some (.num (.float 2)))),
   ("model-b", .record (some (.num (.float 3))) (some (.num (.float 4)))),
   ("model-c", .record (some (.num (.float 5))) (some (.num (.float 6)))),
   ("model-d", .record (some (.num (.float 7))) (some (.num (.float 8)))),
   ("model-e", .record (some (.num (.int 0))) (some (.num (.int 5))))]

/-- A three-entry all-valid snapshot the Validator accepts. -/
def validatorOkSnapshot : List (String × VEntry) :=
  exampleSnapshot.map (fun p => (p.1, toVEntry p.2))

/-- A three-model snapshot that passes validation, used to exhibit a run
with usable data whose write fails. -/
def validSnapshot3 : Snapshot :=
  [("gpt-a", { input := PyNum.float 1, output := PyNum.float 2, description := "A" }),
   ("gpt-b", { input := PyNum.float 3, output := PyNum.float 4, description := "B" }),
   ("gpt-c", { input := PyNum.float 5, output := PyNum.float 6, description := "C" })]

theorem concatMap_eq_nil {α β : Type} (f : α → List β) :
    ∀ l : List α, (∀ a ∈ l, f a = []) → concatMap f l = []
  | [], _ => rfl
  | a :: es, h => by
    rw [concatMap, h a (List.mem_cons_self a es),
      concatMap_eq_nil f es (fun x hx => h x (List.mem_cons_of_mem a hx))]
    rfl

theorem lookupKey_isSome_of_mem {β : Type} {k : String} {v : β} :
    ∀ {l : List (String × β)}, (k, v) ∈ l → (lookupKey l k).isSome = true := by
  intro l
  induction l with
  | nil => intro h; cases h
  | cons p es ih =>
    intro h
    obtain ⟨a, b⟩ := p
    by_cases hak : a = k
    · simp [lookupKey, hak]
    · rcases List.mem_cons.mp h with h1 | h2
      · rw [Prod.mk.injEq] at h1
        exact absurd h1.1.symm hak
      · simpa [lookupKey, hak] using ih h2

theorem lookupKey_eq_of_mem {β : Type} {k : String} {v : β} :
    ∀ {l : List (String × β)}, keysNodup l → (k, v) ∈ l → lookupKey l k = some v := by
  intro l
  induction l with
  | nil => intro _ h; cases h
  | cons p es ih =>
    intro hn h
    obtain ⟨a, b⟩ := p
    have hn' := List.nodup_cons.mp hn
    rcases List.mem_cons.mp h with h1 | h2
    · rw [Prod.mk.injEq] at h1
      obtain ⟨hk, hv⟩ := h1
      simp [lookupKey, hk, hv]
    · have hak : a ≠ k := by
        intro hEq
        subst hEq
        exact hn'.1 (List.mem_map.mpr ⟨(a, v), h2, rfl⟩)
      simp only [lookupKey, if_neg hak]
      exact ih hn'.2 h2

theorem eqb_self (r : PyNum) : PyNum.eqb r r = true := by
  simp [PyNum.eqb]

theorem model_changes_self (p : String) (s : Snapshot) (hn : keysNodup s) :
    model_changes p s s = [] := by
  have h1 : concatMap (fun mm =>
      match lookupKey s mm.1 with
      | none => ["New model: " ++ p ++ "/" ++ mm.1]
      | some old_r =>
        (if PyNum.eqb old_r.input mm.2.input then [] else
          ["Price change: " ++ p ++ "/" ++ mm.1 ++ " input $" ++
            old_r.input.pyStr ++ " → $" ++ mm.2.input.pyStr]) ++
        (if PyNum.eqb old_r.output mm.2.output then [] else
          ["Price change: " ++ p ++ "/" ++ mm.1 ++ " output $" ++
            old_r.output.pyStr ++ " → $" ++ mm.2.output.pyStr])) s = [] := by
    refine concatMap_eq_nil _ s (fun mm hmm => ?_)
    obtain ⟨mk, mv⟩ := mm
    rw [lookupKey_eq_of_mem hn hmm]
    simp [eqb_self]
  have h2 : concatMap (fun mm =>
      if (lookupKey s mm.1).isSome then []
      else ["Removed model: " ++ p ++ "/" ++ mm.1]) s = ([] : List String) := by
    refine concatMap_eq_nil _ s (fun mm hmm => ?_)
    obtain ⟨mk, mv⟩ := mm
    simp [lookupKey_isSome_of_mem hmm]
  rw [model_changes, h1, h2]
  rfl

theorem compare_models_self (m : Models) (h : wfModels m) :
    compare_models m m = [] := by
  have h1 : concatMap (fun pm =>
      if (lookupKey m pm.1).isSome then []
      else ["New provider: " ++ pm.1]) m = ([] : List String) := by
    refine concatMap_eq_nil _ m (fun pm hpm => ?_)
    obtain ⟨pk, pv⟩ := pm
    simp [lookupKey_isSome_of_mem hpm]
  have h2 : concatMap (fun pm =>
      if (lookupKey m pm.1).isSome then []
      else ["Removed provider: " ++ pm.1]) m = ([] : List String) := by
    refine concatMap_eq_nil _ m (fun pm hpm => ?_)
    obtain ⟨pk, pv⟩ := pm
    simp [lookupKey_isSome_of_mem hpm]
  have h3 : concatMap (fun pm =>
      match lookupKey m pm.1 with
      | none => []
      | some old_s => model_changes pm.1 old_s pm.2) m = ([] : List String) := by
    refine concatMap_eq_nil _ m (fun pm hpm => ?_)
    obtain ⟨pk, pv⟩ := pm
    rw [lookupKey_eq_of_mem h.1 hpm]
    exact model_changes_self pk pv (h.2 (pk, pv) hpm)
  rw [compare_models, h1, h2, h3]
  rfl

/-- C6: for every new pricing document, diffing against a null old
document returns `changed = true` and the change list is exactly the
single string "Initial pricing data created"; the remaining diff rules
are short-circuited. -/
theorem diff_null_single_initial_change (n : PricingDocument) :
    compare_pricing OldArg.null n = (true, ["Initial pricing data created"]) := rfl

/-- C10: for every new document, diffing against an old document that is
present but an empty mapping behaves exactly as the null case: it
returns `changed = true` with the single change "Initial pricing data
created" instead of reporting new providers. -/
theorem diff_empty_dict_behaves_as_null (n : PricingDocument) :
    compare_pricing OldArg.emptyDict n = (true, ["Initial pricing data created"]) ∧
      compare_pricing OldArg.emptyDict n = compare_pricing OldArg.null n :=
  ⟨rfl, rfl⟩

/-- C5: diffing a valid pricing document against itself yields
`changed = false` and an empty change list (validity includes the
Python-dict guarantee that keys are unique). -/
theorem diff_identical_document_no_changes (X : PricingDocument)
    (h : wfModels X.models) :
    compare_pricing (OldArg.doc X) X = (false, []) := by
  simp [compare_pricing, compare_models_self X.models h]

theorem diff_identical_document_no_changes_witness :
    wfModels exampleDoc.models ∧
      compare_pricing (OldArg.doc exampleDoc) exampleDoc = (false, []) :=
  ⟨by decide, diff_identical_document_no_changes exampleDoc (by decide)⟩

/-- C7: when the old document has provider openai with model gpt-4 at
input 10 / output 30 and the new document differs only in output 25,
the diff returns `changed = true` and exactly the change
"Price change: openai/gpt-4 output $30 → $25" (the prices being the
JSON integers 10/30/25, whose Python `str` has no decimal point). -/
theorem diff_output_price_change_scenario (lu1 lu2 d : String)
    (src1 src2 : List (String × String)) :
    compare_pricing
      (OldArg.doc
        { last_updated := lu1, sources := src1,
          models := [("openai",
            [("gpt-4",
              { input := PyNum.int 10, output := PyNum.int 30, description := d })])] })
      { last_updated := lu2, sources := src2,
        models := [("openai",
          [("gpt-4",
            { input := PyNum.int 10, output := PyNum.int 25, description := d })])] } =
      (true, ["Price change: openai/gpt-4 output $30 → $25"]) := by
  rfl

/-- C9: the diff result depends only on the `models` fields of its two
arguments and on the presence of the old side: equal models mappings
give identical results whatever `last_updated` and `sources` are, both
for present old documents and for the null old side; in particular a
document diffed against a copy of itself with only `last_updated`
changed reports no changes. -/
theorem diff_depends_only_on_models (o1 o2 n1 n2 : PricingDocument)
    (ho : o1.models = o2.models) (hn : n1.models = n2.models) :
    (compare_pricing (OldArg.doc o1) n1 = compare_pricing (OldArg.doc o2) n2 ∧
      compare_pricing OldArg.null n1 = compare_pricing OldArg.null n2) ∧
      (wfModels n1.models →
        compare_pricing (OldArg.doc n1)
          { n1 with last_updated := n2.last_updated } = (false, [])) := by
  refine ⟨⟨?_, rfl⟩, ?_⟩
  · show (decide (0 < (compare_models o1.models n1.models).length),
        compare_models o1.models n1.models) =
      (decide (0 < (compare_models o2.models n2.models).length),
        compare_models o2.models n2.models)
    rw [ho, hn]
  · intro hw
    simp [compare_pricing, compare_models_self n1.models hw]

theorem diff_depends_only_on_models_witness :
    (compare_pricing (OldArg.doc exampleDoc) exampleDoc =
        compare_pricing (OldArg.doc exampleDocNewer) exampleDocNewer ∧
      compare_pricing OldArg.null exampleDoc =
        compare_pricing OldArg.null exampleDocNewer) ∧
      (wfModels exampleDoc.models →
        compare_pricing (OldArg.doc exampleDoc)
          { exampleDoc with last_updated := exampleDocNewer.last_updated } =
          (false, [])) :=
  diff_depends_only_on_models exampleDoc exampleDocNewer exampleDoc exampleDocNewer
    rfl rfl

/-- C1 counterexample: on the table consisting of the single row
["GPT-4", "$10.00", "$30.00"], the OpenAI extractor does NOT yield
input 10.0 / output 30.0: the price loop also scans the model-name
cell, whose text "GPT-4" contributes the in-range number 4.0. -/
theorem openai_row_scenario_counterexample :
    parse_openai_pricing [[["GPT-4", "$10.00", "$30.00"]]] ≠
      some [("gpt-4",
        { input := PyNum.float 10, output := PyNum.float 30,
          description := "GPT-4" })] := by
  decide

/-- C1 amended: on the table consisting of the single row
["GPT-4", "$10.00", "$30.00"], the OpenAI extractor yields the snapshot
mapping "gpt-4" to input 4.0 and output 10.0 with description "GPT-4":
numeric tokens are collected from ALL cells of the row in encounter
order, the model-name cell included, so the "4" of "GPT-4" is the
first price and "$10.00" the second. -/
theorem openai_row_scenario_includes_model_cell :
    parse_openai_pricing [[["GPT-4", "$10.00", "$30.00"]]] =
      some [("gpt-4",
        { input := PyNum.float 4, output := PyNum.float 10,
          description := "GPT-4" })] := by
  decide

/-- C2 counterexample: the Validator accepts `validatorCexSnapshot`
(five entries, four in range — exactly the 80% floor) although its
fifth record has `input = 0`, outside `(0, 1000)`; so acceptance does
not make every record satisfy the range bounds. -/
theorem validator_accepts_out_of_range_record :
    validate_pricing_data validatorCexSnapshot "OpenAI" 0 = true ∧
      ¬ ∀ p ∈ validatorCexSnapshot, isValidEntry p.2 = true := by
  decide

/-- C2 amended: for every snapshot the Validator accepts, the snapshot
has at least 3 entries and at least 80% of its entries are records
whose input and output are numeric and within `(0, 1000)`; individual
records may still be out of range. -/
theorem validator_accept_bounds (d : List (String × VEntry)) (prov : String)
    (c : Nat) (h : validate_pricing_data d prov c = true) :
    3 ≤ d.length ∧
      4 * d.length ≤ 5 * (d.filter (fun p => isValidEntry p.2)).length := by
  simp only [validate_pricing_data] at h
  split_ifs at h with h1 h2 h3
  exact ⟨by omega, by omega⟩

theorem validator_accept_bounds_witness :
    validate_pricing_data validatorOkSnapshot "OpenAI" 0 = true ∧
      (3 ≤ validatorOkSnapshot.length ∧
        4 * validatorOkSnapshot.length ≤
          5 * (validatorOkSnapshot.filter (fun p => isValidEntry p.2)).length) :=
  ⟨by decide, validator_accept_bounds validatorOkSnapshot "OpenAI" 0 (by decide)⟩

/-- C3: in scripts/fetch_pricing.py the save decision of the
changes-detected branch is `args.force or input(...) == 'y' or True`,
which is true for every combination of the force flag and the
confirmation answer — the new document is persisted even when force is
unset and the user does not answer yes, contradicting the
confirmation gate the prompt "(y/N)" documents (script/fetch_pricing.py
implements that gate as `force || user_yes`). -/
theorem scripts_variant_saves_without_confirmation
    (force answer_is_yes : Bool) :
    should_save_scripts_variant force answer_is_yes = true := by
  simp [should_save_scripts_variant]

/-- C8: when neither provider fetch yields usable data (both are falsy
after validation) and a truthy prior document was loaded, the run
returns exit code 0 without attempting any write, leaving the on-disk
file untouched. -/
theorem total_fetch_failure_keeps_existing (e : PricingDocument)
    (openai_fetch anthropic_fetch : Option Snapshot)
    (force user_yes save_ok : Bool) (now : String)
    (ho : snapVal (postValidate openai_fetch "OpenAI"
      (existingCount (OldArg.doc e) "openai")) = none)
    (ha : snapVal (postValidate anthropic_fetch "Anthropic"
      (existingCount (OldArg.doc e) "anthropic")) = none) :
    runMain (OldArg.doc e) openai_fetch anthropic_fetch force user_yes save_ok now =
      { exitCode := 0, saveAttempted := false, savedDoc := none } := by
  unfold runMain runCore
  rw [ho, ha]
  simp [truthyOld]

theorem total_fetch_failure_keeps_existing_witness :
    runMain (OldArg.doc exampleDoc) none none false false false "t" =
      { exitCode := 0, saveAttempted := false, savedDoc := none } :=
  total_fetch_failure_keeps_existing exampleDoc none none false false false "t"
    rfl rfl

/-- C4 counterexample: a run with usable fetched data (a validated
three-model OpenAI snapshot) whose forced save fails exits with status
1, although a provider yielded usable data — so failure of the write is
a further non-zero case beyond "no usable data and no existing
snapshot". -/
theorem exit_nonzero_despite_usable_data :
    (runMain OldArg.null (some validSnapshot3) none true false false "t").exitCode = 1 ∧
      (snapVal (postValidate (some validSnapshot3) "OpenAI" 0)).isSome = true := by
  decide

/-- Exit-code case analysis of `runCore`: the exit code is non-zero
exactly when both post-validation fetch results are falsy and the
loaded document is falsy, or a save was attempted and the write
failed. -/
theorem runCore_exit_characterization (existing : OldArg)
    (o a : Option Snapshot) (force user_yes save_ok : Bool) (now : String) :
    (runCore existing o a force user_yes save_ok now).exitCode ≠ 0 ↔
      ((o.isNone ∧ a.isNone ∧ truthyOld existing = false) ∨
        ((runCore existing o a force user_yes save_ok now).saveAttempted = true ∧
          save_ok = false)) := by
  simp only [runCore]
  split_ifs <;> simp_all

/-- C4 amended: the exit status is 0 on all success paths (changes
saved, changes declined, no changes, and existing data kept on total
fetch failure), and is non-zero exactly when either no provider yielded
usable data and no truthy prior document was loaded, or a save was
attempted (changes confirmed or forced, or force with no changes) and
the file write failed. -/
theorem exit_code_characterization (existing : OldArg)
    (openai_fetch anthropic_fetch : Option Snapshot)
    (force user_yes save_ok : Bool) (now : String) :
    (runMain existing openai_fetch anthropic_fetch force user_yes save_ok now).exitCode ≠ 0 ↔
      (((snapVal (postValidate openai_fetch "OpenAI"
          (existingCount existing "openai"))).isNone ∧
        (snapVal (postValidate anthropic_fetch "Anthropic"
          (existingCount existing "anthropic"))).isNone ∧
        truthyOld existing = false) ∨
        ((runMain existing openai_fetch anthropic_fetch force user_yes save_ok
            now).saveAttempted = true ∧
          save_ok = false)) := by
  unfold runMain
  exact runCore_exit_characterization existing _ _ force user_yes save_ok now
